import Mathlib

/-!
Verification of the adaptive-agent AI system (Python backend) against its
natural-language specification.  Python strings are embedded as Lean
`String`s; Python substring containment (`needle in hay`) is embedded as a
boolean scan over the character lists; `str.lower()` is embedded as the
ASCII lower-casing map (all string constants involved are ASCII).
-/

namespace AdaptiveAgent

/-- ASCII lower-casing of one character, as Python `str.lower()` acts on
the ASCII range (every constant in the routed strings is ASCII). -/
def asciiLower (c : Char) : Char :=
  if 65 ≤ c.toNat ∧ c.toNat ≤ 90 then Char.ofNat (c.toNat + 32) else c

/-- `str.lower()` on an embedded string. -/
def lowerStr (s : String) : String :=
  ⟨s.data.map asciiLower⟩

/-- `startsWithCL needle hay` : the char list `needle` is an initial
segment of `hay`. -/
def startsWithCL : List Char → List Char → Bool
  | [], _ => true
  | _ :: _, [] => false
  | a :: as, b :: bs => a == b && startsWithCL as bs

/-- `containsCL needle hay` : the char list `needle` occurs contiguously
inside `hay` — Python `needle in hay` on strings. -/
def containsCL (needle : List Char) : List Char → Bool
  | [] => startsWithCL needle []
  | b :: bs => startsWithCL needle (b :: bs) || containsCL needle bs

/-- Python `needle in hay` for strings. -/
def strContains (hay needle : String) : Bool :=
  containsCL needle.data hay.data

/-- Python `any(p in hay for p in phrases)`. -/
def containsAny (hay : String) (phrases : List String) : Bool :=
  phrases.any (fun p => strContains hay p)

/-! ## Router: `LocalAutoAgent.route_and_process`
(src/backend/app/agents/local_ai_agents.py, lines 849-881) -/

/-- Email-specific routing phrases (first `if` branch). -/
def emailSendPhrases : List String :=
  ["send email", "write email", "email to", "compose email",
   "draft email", "create email", "generate email", "@"]

/-- Sales routing keywords (second branch). -/
def salesWords : List String :=
  ["qualify", "lead", "prospect", "objection", "discovery", "sales",
   "call", "meeting", "close", "pipeline", "quota", "conversion"]

/-- Email marketing/strategy routing keywords (third branch). -/
def emailMarketingWords : List String :=
  ["outreach", "sequence", "subject", "campaign", "cold", "follow-up", "template"]

/-- The handler a task is routed to. -/
inductive Route where
  | email
  | sales
  | emailMarketing
  | general
deriving DecidableEq, Repr

/-- `LocalAutoAgent.route_and_process`: lower-case the task, then test the
branch predicates in source order, first match wins. -/
def route_and_process (task : String) : Route :=
  let task_lower := lowerStr task
  if containsAny task_lower emailSendPhrases then Route.email
  else if containsAny task_lower salesWords then Route.sales
  else if containsAny task_lower emailMarketingWords then Route.emailMarketing
  else Route.general

/-- The `routed_to` tag set on the result dict (the email branch delegates
to `_handle_email_request`, which sets no such tag). -/
def routedTo : Route → Option String
  | Route.email => none
  | Route.sales => some "SALES"
  | Route.emailMarketing => some "EMAIL"
  | Route.general => some "GENERAL"

/-! Helper lemmas about containment. -/

theorem startsWithCL_mem {needle hay : List Char}
    (h : startsWithCL needle hay = true) : ∀ c ∈ needle, c ∈ hay := by
  induction needle generalizing hay with
  | nil => intro c hc; cases hc
  | cons a as ih =>
    cases hay with
    | nil => simp [startsWithCL] at h
    | cons b bs =>
      simp only [startsWithCL, Bool.and_eq_true, beq_iff_eq] at h
      intro c hc
      rcases List.mem_cons.mp hc with rfl | hc
      · exact List.mem_cons.mpr (Or.inl h.1)
      · exact List.mem_cons.mpr (Or.inr (ih h.2 c hc))

theorem containsCL_mem {needle hay : List Char}
    (h : containsCL needle hay = true) : ∀ c ∈ needle, c ∈ hay := by
  induction hay with
  | nil => exact startsWithCL_mem h
  | cons b bs ih =>
    simp only [containsCL, Bool.or_eq_true] at h
    rcases h with h | h
    · exact startsWithCL_mem h
    · intro c hc
      exact List.mem_cons.mpr (Or.inr (ih h c hc))

/-- Whitespace characters (Python `str.isspace` on the ASCII range). -/
def isWS (c : Char) : Bool :=
  c == ' ' || c == '\t' || c == '\n' || c == '\r' || c == '\x0b' || c == '\x0c'

theorem asciiLower_ws {c : Char} (h : isWS c = true) : asciiLower c = c := by
  simp only [isWS, Bool.or_eq_true, beq_iff_eq] at h
  rcases h with ((((rfl | rfl) | rfl) | rfl) | rfl) | rfl <;> rfl

/-- A needle holding a non-whitespace character is not contained in a
whitespace-only haystack. -/
theorem containsCL_ws_false {needle hay : List Char}
    (hws : ∀ c ∈ hay, isWS c = true)
    (hne : ∃ c ∈ needle, isWS c = false) :
    containsCL needle hay = false := by
  by_contra h
  rw [Bool.not_eq_false] at h
  obtain ⟨c, hc, hcws⟩ := hne
  have := hws c (containsCL_mem h c hc)
  rw [this] at hcws
  cases hcws

theorem containsAny_ws_false (s : String) (L : List String)
    (hs : ∀ c ∈ s.data, isWS c = true)
    (hL : ∀ k ∈ L, k.data.any (fun c => !isWS c) = true) :
    containsAny s L = false := by
  simp only [containsAny, List.any_eq_false]
  intro k hk
  rw [Bool.not_eq_true]
  show containsCL k.data s.data = false
  apply containsCL_ws_false hs
  obtain ⟨c, hc, hcw⟩ := List.any_eq_true.mp (hL k hk)
  exact ⟨c, hc, by simpa using hcw⟩

theorem lowerStr_ws {task : String} (h : ∀ c ∈ task.data, isWS c = true) :
    ∀ c ∈ (lowerStr task).data, isWS c = true := by
  intro c hc
  simp only [lowerStr, List.mem_map] at hc
  obtain ⟨a, ha, rfl⟩ := hc
  rw [asciiLower_ws (h a ha)]
  exact h a ha

/-- C1: a task containing an email-send phrase (after lower-casing) is
routed to the email handler — the email-send predicate is tested before
the sales and email-marketing predicates and the first match wins. -/
theorem C1_email_send_priority (task : String)
    (h : containsAny (lowerStr task) emailSendPhrases = true) :
    route_and_process task = Route.email := by
  simp [route_and_process, h]

/-- C1 witness: a task holding both an email-send phrase and sales
keywords still resolves to the email handler. -/
theorem C1_email_send_priority_witness :
    containsAny (lowerStr "Send email to the sales lead about our pipeline")
      emailSendPhrases = true ∧
    containsAny (lowerStr "Send email to the sales lead about our pipeline")
      salesWords = true ∧
    route_and_process "Send email to the sales lead about our pipeline" =
      Route.email :=
  ⟨by decide, by decide,
   C1_email_send_priority "Send email to the sales lead about our pipeline"
     (by decide)⟩

/-- C5: an empty or whitespace-only task matches no routing predicate,
falls through to the default handler, and is tagged `routed_to GENERAL`
(the Lean embedding is a total function, so no exception is possible). -/
theorem C5_whitespace_routes_general (task : String)
    (h : ∀ c ∈ task.data, isWS c = true) :
    route_and_process task = Route.general ∧
    routedTo (route_and_process task) = some "GENERAL" := by
  have hl := lowerStr_ws h
  have h1 : containsAny (lowerStr task) emailSendPhrases = false :=
    containsAny_ws_false _ _ hl (by decide)
  have h2 : containsAny (lowerStr task) salesWords = false :=
    containsAny_ws_false _ _ hl (by decide)
  have h3 : containsAny (lowerStr task) emailMarketingWords = false :=
    containsAny_ws_false _ _ hl (by decide)
  constructor
  · simp [route_and_process, h1, h2, h3]
  · simp [route_and_process, h1, h2, h3, routedTo]

/-- C5 witness: the three-space task routes to the general handler. -/
theorem C5_whitespace_routes_general_witness :
    route_and_process "   " = Route.general ∧
    routedTo (route_and_process "   ") = some "GENERAL" :=
  C5_whitespace_routes_general "   " (by decide)

/-! ## Reply classifier: `AdvancedEmailAgent.analyze_response`
(src/backend/app/agents/advanced_email_agent.py, lines 241-281) -/

/-- Interest indicators. -/
def interest_keywords : List String :=
  ["interested", "tell me more", "schedule", "call", "meeting", "demo",
   "learn more", "sounds good"]

def not_interested_keywords : List String :=
  ["not interested", "no thank you", "remove", "unsubscribe", "stop",
   "not looking"]

def question_keywords : List String :=
  ["how", "what", "when", "where", "why", "can you", "could you", "?"]

def timing_keywords : List String :=
  ["not right now", "maybe later", "next quarter", "next year", "busy",
   "timing"]

/-- `sum(1 for keyword in kws if keyword in body_lower)`. -/
def scoreOf (kws : List String) (body_lower : String) : Nat :=
  kws.countP (fun keyword => strContains body_lower keyword)

inductive Category where
  | notInterested
  | interested
  | hasQuestions
  | badTiming
  | neutral
deriving DecidableEq, Repr

/-- The value `analyze_response` returns (the Python locals
`body_lower`, `*_score` are inlined; the returned dict holds exactly the
fields of this structure, see `analyze_response_dict`). -/
structure Analysis where
  category : Category
  confidence : ℚ
  interestScore : Nat
  questionScore : Nat
  body : String
deriving DecidableEq, Repr

/-- `AdvancedEmailAgent.analyze_response`: score the four keyword sets on
the lower-cased body and pick the category by the if/elif chain. -/
def analyze_response (email_body : String) : Analysis :=
  if 0 < scoreOf not_interested_keywords (lowerStr email_body) then
    ⟨Category.notInterested, 9/10,
     scoreOf interest_keywords (lowerStr email_body),
     scoreOf question_keywords (lowerStr email_body), email_body⟩
  else if 0 < scoreOf interest_keywords (lowerStr email_body) then
    ⟨Category.interested, 8/10,
     scoreOf interest_keywords (lowerStr email_body),
     scoreOf question_keywords (lowerStr email_body), email_body⟩
  else if 0 < scoreOf question_keywords (lowerStr email_body) then
    ⟨Category.hasQuestions, 7/10,
     scoreOf interest_keywords (lowerStr email_body),
     scoreOf question_keywords (lowerStr email_body), email_body⟩
  else if 0 < scoreOf timing_keywords (lowerStr email_body) then
    ⟨Category.badTiming, 7/10,
     scoreOf interest_keywords (lowerStr email_body),
     scoreOf question_keywords (lowerStr email_body), email_body⟩
  else
    ⟨Category.neutral, 1/2,
     scoreOf interest_keywords (lowerStr email_body),
     scoreOf question_keywords (lowerStr email_body), email_body⟩

/-- The fixed per-category confidence table described by the spec: a
lookup, not a computed probability. -/
def confidenceOf : Category → ℚ
  | Category.notInterested => 9/10
  | Category.interested => 8/10
  | Category.hasQuestions => 7/10
  | Category.badTiming => 7/10
  | Category.neutral => 1/2

/-- C2: the classifier picks the category by the fixed priority order
not_interested > interested > has_questions > bad_timing > neutral,
independent of score magnitudes, and the confidence is the fixed
per-category constant (0.9 / 0.8 / 0.7 / 0.7 / 0.5), never derived from
the scores; any not-interested keyword forces `not_interested` at 0.9. -/
theorem C2_fixed_priority_and_confidence (body : String) :
    (analyze_response body).confidence =
      confidenceOf (analyze_response body).category ∧
    (0 < scoreOf not_interested_keywords (lowerStr body) →
      (analyze_response body).category = Category.notInterested ∧
      (analyze_response body).confidence = 9/10) ∧
    (scoreOf not_interested_keywords (lowerStr body) = 0 →
      0 < scoreOf interest_keywords (lowerStr body) →
      (analyze_response body).category = Category.interested ∧
      (analyze_response body).confidence = 8/10) ∧
    (scoreOf not_interested_keywords (lowerStr body) = 0 →
      scoreOf interest_keywords (lowerStr body) = 0 →
      0 < scoreOf question_keywords (lowerStr body) →
      (analyze_response body).category = Category.hasQuestions ∧
      (analyze_response body).confidence = 7/10) ∧
    (scoreOf not_interested_keywords (lowerStr body) = 0 →
      scoreOf interest_keywords (lowerStr body) = 0 →
      scoreOf question_keywords (lowerStr body) = 0 →
      0 < scoreOf timing_keywords (lowerStr body) →
      (analyze_response body).category = Category.badTiming ∧
      (analyze_response body).confidence = 7/10) ∧
    (scoreOf not_interested_keywords (lowerStr body) = 0 →
      scoreOf interest_keywords (lowerStr body) = 0 →
      scoreOf question_keywords (lowerStr body) = 0 →
      scoreOf timing_keywords (lowerStr body) = 0 →
      (analyze_response body).category = Category.neutral ∧
      (analyze_response body).confidence = 1/2) := by
  unfold analyze_response
  split_ifs with h1 h2 h3 h4 <;>
    refine ⟨rfl, ?_, ?_, ?_, ?_, ?_⟩ <;>
    intros <;> first | exact ⟨rfl, rfl⟩ | omega

/-- C2 witness: a body holding a not-interested keyword and interest
keywords is still classified `not_interested` at confidence 0.9. -/
theorem C2_fixed_priority_and_confidence_witness :
    (analyze_response "I am interested in a demo but also not interested"
      ).category = Category.notInterested ∧
    (analyze_response "I am interested in a demo but also not interested"
      ).confidence = 9/10 :=
  ((C2_fixed_priority_and_confidence
      "I am interested in a demo but also not interested").2.1 (by decide))

/-- C3: each per-set score counts exactly the keywords of the set that
occur as plain substrings of the lower-cased body; there is no
word-boundary check, so any keyword occurring inside a longer word makes
the score positive. -/
theorem C3_substring_scores (body : String) (kws : List String) :
    scoreOf kws (lowerStr body) =
      (kws.filter (fun k => strContains (lowerStr body) k)).length ∧
    (∀ k ∈ kws, strContains (lowerStr body) k = true →
      1 ≤ scoreOf kws (lowerStr body)) ∧
    (analyze_response body).interestScore =
      scoreOf interest_keywords (lowerStr body) ∧
    (analyze_response body).questionScore =
      scoreOf question_keywords (lowerStr body) := by
  refine ⟨List.countP_eq_length_filter _ _, ?_, ?_, ?_⟩
  · intro k hk hc
    exact List.countP_pos_iff.mpr ⟨k, hk, hc⟩
  · unfold analyze_response
    split_ifs <;> rfl
  · unfold analyze_response
    split_ifs <;> rfl

/-- C3 witness: "how" occurs inside "showhow", so the question score of
the body "showhow" is positive with no word boundary present. -/
theorem C3_substring_scores_witness :
    strContains (lowerStr "showhow") "how" = true ∧
    1 ≤ scoreOf question_keywords (lowerStr "showhow") :=
  ⟨by decide,
   (C3_substring_scores "showhow" question_keywords).2.1 "how"
     (by decide) (by decide)⟩

/-! ## The dict returned by `analyze_response` (claim C9). -/

inductive PyVal where
  | s (v : String)
  | n (v : Nat)
  | q (v : ℚ)
  | cat (v : Category)
deriving DecidableEq, Repr

/-- The literal dict `analyze_response` returns, key by key in source
order. -/
def analyze_response_dict (email_body : String) : List (String × PyVal) :=
  [("category", PyVal.cat (analyze_response email_body).category),
   ("confidence", PyVal.q (analyze_response email_body).confidence),
   ("interest_score", PyVal.n (analyze_response email_body).interestScore),
   ("question_score", PyVal.n (analyze_response email_body).questionScore),
   ("body", PyVal.s (analyze_response email_body).body)]

/-- Python `d.get(k)` on an embedded dict. -/
def dictLookup {α : Type} (m : List (String × α)) (k : String) : Option α :=
  (m.find? (fun kv => kv.1 == k)).map (fun kv => kv.2)

/-- C9: the analysis dict has exactly the keys category, confidence,
interest_score, question_score and body; the not-interested score and the
timing score are absent from the returned value. -/
theorem C9_returned_keys (body : String) :
    (analyze_response_dict body).map Prod.fst =
      ["category", "confidence", "interest_score", "question_score",
       "body"] ∧
    dictLookup (analyze_response_dict body) "not_interested_score" = none ∧
    dictLookup (analyze_response_dict body) "timing_score" = none := by
  refine ⟨rfl, rfl, rfl⟩

/-- C9 witness: the key list at a concrete body. -/
theorem C9_returned_keys_witness :
    (analyze_response_dict "hello").map Prod.fst =
      ["category", "confidence", "interest_score", "question_score",
       "body"] :=
  (C9_returned_keys "hello").1

/-! ## Campaign statistics: `AdvancedEmailAgent.get_campaign_stats`
(src/backend/app/agents/advanced_email_agent.py, lines 401-418) -/

/-- A prospect dict as produced by `load_prospect_list` (every key
present). -/
structure Prospect where
  email : String
  name : String
  company : String
  role : String
  context : String
deriving DecidableEq, Repr

/-- One entry of `self.prospect_status`.  `lastResponseCategory` is
`some c` exactly when the Python dict holds a `'last_response'` key whose
`'category'` is `c`. -/
structure ProspectStatus where
  status : String
  sentAt : String
  subject : String
  prospectInfo : Prospect
  lastResponseCategory : Option Category
deriving DecidableEq, Repr

structure CampaignStats where
  total_sent : Nat
  total_replies : Nat
  interested_replies : Nat
  response_rate : ℚ
  interest_rate : ℚ
deriving DecidableEq, Repr

/-- `AdvancedEmailAgent.get_campaign_stats`: counts over the status map,
with both ratios guarded by `if total_sent > 0`. -/
def get_campaign_stats (prospect_status : List (String × ProspectStatus)) :
    CampaignStats :=
  let total_sent := prospect_status.length
  let replied := prospect_status.countP
    (fun kv => kv.2.lastResponseCategory.isSome)
  let interested := prospect_status.countP
    (fun kv => kv.2.lastResponseCategory == some Category.interested)
  { total_sent := total_sent
    total_replies := replied
    interested_replies := interested
    response_rate :=
      if 0 < total_sent then (replied : ℚ) / total_sent * 100 else 0
    interest_rate :=
      if 0 < total_sent then (interested : ℚ) / total_sent * 100 else 0 }

/-- C6: on an empty status map every statistic is 0 and the guarded
division branch is not taken, so no division by zero occurs. -/
theorem C6_empty_stats :
    get_campaign_stats [] =
      { total_sent := 0, total_replies := 0, interested_replies := 0,
        response_rate := 0, interest_rate := 0 } := rfl

/-- C10: for every status map,
0 ≤ interested_replies ≤ total_replies ≤ total_sent, and both rates are
percentages in [0, 100]. -/
theorem C10_stats_invariants (m : List (String × ProspectStatus)) :
    0 ≤ (get_campaign_stats m).interested_replies ∧
    (get_campaign_stats m).interested_replies ≤
      (get_campaign_stats m).total_replies ∧
    (get_campaign_stats m).total_replies ≤
      (get_campaign_stats m).total_sent ∧
    0 ≤ (get_campaign_stats m).response_rate ∧
    (get_campaign_stats m).response_rate ≤ 100 ∧
    0 ≤ (get_campaign_stats m).interest_rate ∧
    (get_campaign_stats m).interest_rate ≤ 100 := by
  have hmono : ∀ kv ∈ m,
      (kv.2.lastResponseCategory == some Category.interested) = true →
      kv.2.lastResponseCategory.isSome = true := by
    intro kv _ h
    rw [beq_iff_eq] at h
    rw [h]
    rfl
  have h1 : m.countP
      (fun kv => kv.2.lastResponseCategory == some Category.interested) ≤
      m.countP (fun kv => kv.2.lastResponseCategory.isSome) :=
    List.countP_mono_left hmono
  have h2 : m.countP (fun kv => kv.2.lastResponseCategory.isSome) ≤
      m.length := List.countP_le_length _
  have h3 : m.countP
      (fun kv => kv.2.lastResponseCategory == some Category.interested) ≤
      m.length := le_trans h1 h2
  unfold get_campaign_stats
  refine ⟨Nat.zero_le _, h1, h2, ?_, ?_, ?_, ?_⟩ <;> dsimp only <;>
    split_ifs with h
  · positivity
  · norm_num
  · have hl : (0:ℚ) < m.length := by exact_mod_cast h
    have hr : (m.countP (fun kv => kv.2.lastResponseCategory.isSome) : ℚ) ≤
        (m.length : ℚ) := by exact_mod_cast h2
    have hd := (div_le_one hl).mpr hr
    linarith
  · norm_num
  · positivity
  · norm_num
  · have hl : (0:ℚ) < m.length := by exact_mod_cast h
    have hr : (m.countP
        (fun kv => kv.2.lastResponseCategory == some Category.interested)
        : ℚ) ≤ (m.length : ℚ) := by exact_mod_cast h3
    have hd := (div_le_one hl).mpr hr
    linarith
  · norm_num

/-! ## Bulk sending: `AdvancedEmailAgent.send_bulk_emails`
(src/backend/app/agents/advanced_email_agent.py, lines 118-181), with
`generate_personalized_email` (lines 46-117). -/

structure EmailContent where
  subject : String
  body : String
  recipient : String
deriving DecidableEq, Repr

/-- Template-key selection: iterate the template keys in dict order and
take the first one contained in `prospect['role'].lower()`; otherwise
keep `'default'`. -/
def roleKeyOf (role : String) : String :=
  match (["ceo", "vp", "default"]).find?
      (fun key => strContains (lowerStr role) key) with
  | some k => k
  | none => "default"

def ceoBody (p : Prospect) : String :=
  "Hi " ++ p.name ++ ",\n\nI\x27ve been following " ++ p.company ++
  "\x27s growth and I\x27m impressed by your recent achievements.\n\n" ++
  "Many CEOs in your industry are facing challenges with operational " ++
  "efficiency and scaling their teams. We\x27ve helped companies like " ++
  "yours achieve:\n• 40% increase in team productivity\n" ++
  "• 60% reduction in manual processes\n• 25% faster time-to-market\n\n" ++
  "Worth a 15-minute conversation to explore how this could apply to " ++
  p.company ++ "?\n\nBest regards,\n[Your Name]\n[Your Title]\n[Your Company]"

def vpBody (p : Prospect) : String :=
  "Hi " ++ p.name ++ ",\n\nAs a VP at " ++ p.company ++
  ", you\x27re likely focused on hitting ambitious targets while " ++
  "optimizing team performance.\n\nWe\x27ve helped VPs in similar roles " ++
  "achieve:\n• 35% improvement in team efficiency\n" ++
  "• 50% reduction in administrative overhead\n" ++
  "• 20% increase in deal velocity\n\n" ++
  "Interested in a brief call to discuss how this could work for your " ++
  "team?\n\nBest,\n[Your Name]"

def defaultBody (p : Prospect) : String :=
  "Hi " ++ p.name ++ ",\n\nI came across " ++ p.company ++
  " and was impressed by your work in the industry.\n\n" ++
  "We\x27ve been helping companies like yours streamline operations and " ++
  "drive better results. Our clients typically see:\n" ++
  "• Improved operational efficiency\n• Better team productivity\n" ++
  "• Faster decision-making processes\n\n" ++
  "Worth a brief conversation to see if there\x27s a fit?\n\n" ++
  "Best regards,\n[Your Name]"

/-- `AdvancedEmailAgent.generate_personalized_email`. -/
def generate_personalized_email (p : Prospect) : EmailContent :=
  let role_key := roleKeyOf p.role
  if role_key = "ceo" then
    ⟨"Strategic growth opportunity for " ++ p.company, ceoBody p, p.email⟩
  else if role_key = "vp" then
    ⟨"Helping VPs like you exceed targets - " ++ p.company, vpBody p,
     p.email⟩
  else
    ⟨"Quick question about " ++ p.company, defaultBody p, p.email⟩

/-- Python dict assignment `m[k] = v`: overwrite in place when the key
exists, else append. -/
def dictSet {α : Type} (m : List (String × α)) (k : String) (v : α) :
    List (String × α) :=
  if m.any (fun kv => kv.1 == k) then
    m.map (fun kv => if kv.1 == k then (k, v) else kv)
  else m ++ [(k, v)]

/-- The per-prospect loop of `send_bulk_emails`.  `sendOk p` abstracts
whether the try body for `p` (generation, message build,
`server.sendmail`) succeeds; on failure the `except` branch only
increments `failed_sends` and the loop continues; on success the status
entry is written and `successful_sends` is incremented.  `now` stands for
`datetime.now().isoformat()`. -/
def sendLoop (sendOk : Prospect → Bool) (now : String) :
    List Prospect → List (String × ProspectStatus) → Nat → Nat →
    List (String × ProspectStatus) × Nat × Nat
  | [], m, s, f => (m, s, f)
  | p :: rest, m, s, f =>
    if sendOk p then
      sendLoop sendOk now rest
        (dictSet m p.email
          ⟨"sent", now, (generate_personalized_email p).subject, p, none⟩)
        (s + 1) f
    else
      sendLoop sendOk now rest m s (f + 1)

/-- `AdvancedEmailAgent.send_bulk_emails` (its loop, given a live SMTP
connection), starting from the current status map `m0` and zeroed
counters; returns the status map, `successful_sends` and `failed_sends`. -/
def send_bulk_emails (sendOk : Prospect → Bool) (now : String)
    (prospects : List Prospect) (m0 : List (String × ProspectStatus)) :
    List (String × ProspectStatus) × Nat × Nat :=
  sendLoop sendOk now prospects m0 0 0

theorem dictLookup_isSome_iff {α : Type} (m : List (String × α))
    (e : String) :
    (dictLookup m e).isSome = true ↔ ∃ kv ∈ m, kv.1 = e := by
  simp [dictLookup, List.find?_isSome, beq_iff_eq]

theorem mem_keys_dictSet {α : Type} (m : List (String × α)) (k e : String)
    (v : α) :
    (∃ kv ∈ dictSet m k v, kv.1 = e) ↔ (e = k ∨ ∃ kv ∈ m, kv.1 = e) := by
  unfold dictSet
  split_ifs with h
  · constructor
    · rintro ⟨kv, hkv, rfl⟩
      rw [List.mem_map] at hkv
      obtain ⟨ab, hab, rfl⟩ := hkv
      by_cases hk : ab.1 == k
      · left
        simp [hk]
      · right
        exact ⟨ab, hab, by simp [hk]⟩
    · rintro (rfl | ⟨kv, hkv, rfl⟩)
      · obtain ⟨ab, hab, habk⟩ := List.any_eq_true.mp h
        exact ⟨(e, v), List.mem_map.mpr ⟨ab, hab, by simp [habk]⟩, rfl⟩
      · by_cases hk : kv.1 == k
        · refine ⟨(k, v), List.mem_map.mpr ⟨kv, hkv, by simp [hk]⟩, ?_⟩
          exact (beq_iff_eq.mp hk).symm
        · exact ⟨kv, List.mem_map.mpr ⟨kv, hkv, by simp [hk]⟩, rfl⟩
  · constructor
    · rintro ⟨kv, hkv, rfl⟩
      rcases List.mem_append.mp hkv with hm | hs
      · exact Or.inr ⟨kv, hm, rfl⟩
      · rw [List.mem_singleton] at hs
        subst hs
        exact Or.inl rfl
    · rintro (rfl | ⟨kv, hkv, rfl⟩)
      · exact ⟨(e, v), List.mem_append.mpr (Or.inr (List.mem_singleton.mpr
          rfl)), rfl⟩
      · exact ⟨kv, List.mem_append.mpr (Or.inl hkv), rfl⟩

theorem dictLookup_dictSet_isSome {α : Type} (m : List (String × α))
    (k e : String) (v : α) :
    (dictLookup (dictSet m k v) e).isSome = true ↔
    (e = k ∨ (dictLookup m e).isSome = true) := by
  rw [dictLookup_isSome_iff, dictLookup_isSome_iff, mem_keys_dictSet]

theorem sendLoop_spec (sendOk : Prospect → Bool) (now : String)
    (ps : List Prospect) (m : List (String × ProspectStatus)) (s f : Nat) :
    (sendLoop sendOk now ps m s f).2.1 + (sendLoop sendOk now ps m s f).2.2 =
      s + f + ps.length ∧
    ∀ e, (dictLookup (sendLoop sendOk now ps m s f).1 e).isSome = true ↔
      ((dictLookup m e).isSome = true ∨
       ∃ p ∈ ps, sendOk p = true ∧ p.email = e) := by
  induction ps generalizing m s f with
  | nil => simp [sendLoop]
  | cons p rest ih =>
    by_cases h : sendOk p = true
    · simp only [sendLoop]
      rw [if_pos h]
      obtain ⟨ihc, ihm⟩ := ih
        (dictSet m p.email
          ⟨"sent", now, (generate_personalized_email p).subject, p, none⟩)
        (s + 1) f
      refine ⟨by rw [ihc, List.length_cons]; omega, ?_⟩
      intro e
      rw [ihm e, dictLookup_dictSet_isSome]
      constructor
      · rintro ((rfl | hm) | ⟨q, hq, hqo, rfl⟩)
        · exact Or.inr ⟨p, List.mem_cons_self p rest, h, rfl⟩
        · exact Or.inl hm
        · exact Or.inr ⟨q, List.mem_cons_of_mem p hq, hqo, rfl⟩
      · rintro (hm | ⟨q, hq, hqo, rfl⟩)
        · exact Or.inl (Or.inr hm)
        · rcases List.mem_cons.mp hq with rfl | hq
          · exact Or.inl (Or.inl rfl)
          · exact Or.inr ⟨q, hq, hqo, rfl⟩
    · simp only [sendLoop]
      rw [if_neg h]
      rw [Bool.not_eq_true] at h
      obtain ⟨ihc, ihm⟩ := ih m s (f + 1)
      refine ⟨by rw [ihc, List.length_cons]; omega, ?_⟩
      intro e
      rw [ihm e]
      constructor
      · rintro (hm | ⟨q, hq, hqo, rfl⟩)
        · exact Or.inl hm
        · exact Or.inr ⟨q, List.mem_cons_of_mem p hq, hqo, rfl⟩
      · rintro (hm | ⟨q, hq, hqo, rfl⟩)
        · exact Or.inl hm
        · rcases List.mem_cons.mp hq with rfl | hq
          · rw [h] at hqo
            cases hqo
          · exact Or.inr ⟨q, hq, hqo, rfl⟩

/-- C8: in a bulk send, every prospect of the list is processed even when
earlier ones fail (`successful_sends + failed_sends` equals the list
length), and the status map gains entries exactly for the recipients
whose send succeeded. -/
theorem C8_partial_failure_semantics (sendOk : Prospect → Bool)
    (now : String) (prospects : List Prospect)
    (m0 : List (String × ProspectStatus)) :
    (send_bulk_emails sendOk now prospects m0).2.1 +
      (send_bulk_emails sendOk now prospects m0).2.2 = prospects.length ∧
    ∀ e, (dictLookup (send_bulk_emails sendOk now prospects m0).1 e
        ).isSome = true ↔
      ((dictLookup m0 e).isSome = true ∨
       ∃ p ∈ prospects, sendOk p = true ∧ p.email = e) := by
  obtain ⟨hc, hm⟩ := sendLoop_spec sendOk now prospects m0 0 0
  exact ⟨by rw [send_bulk_emails, hc]; omega, fun e => by
    rw [send_bulk_emails, hm e]⟩

/-! ## Outbound generation: `LocalEmailAgent.generate_email`
(src/backend/app/agents/local_ai_agents.py, lines 460-532) -/

/-- Python `str.capitalize()` on the ASCII range: first character
upper-cased, the rest lower-cased. -/
def asciiUpper (c : Char) : Char :=
  if 97 ≤ c.toNat ∧ c.toNat ≤ 122 then Char.ofNat (c.toNat - 32) else c

def pyCapitalize (s : String) : String :=
  match s.data with
  | [] => ""
  | c :: rest => ⟨asciiUpper c :: rest.map asciiLower⟩

/-- Python `str.split()` with no argument: split on whitespace runs,
dropping empty pieces. -/
def pySplitWSAux (cur : List Char) : List Char → List String
  | [] => if cur.isEmpty then [] else [⟨cur.reverse⟩]
  | c :: rest =>
    if isWS c then
      if cur.isEmpty then pySplitWSAux [] rest
      else (⟨cur.reverse⟩ : String) :: pySplitWSAux [] rest
    else pySplitWSAux (c :: cur) rest

def pySplitWS (s : String) : List String :=
  pySplitWSAux [] s.data

/-- The five cold subject-line templates of the knowledge base, applied
to the keyword arguments `generate_email` passes to `.format` (company,
name, trigger_event, pain_point, solution).  The fifth template is
"Helping {similar_company} with {result}": neither placeholder is among
the passed keywords, so Python raises `KeyError` — modelled as `none`. -/
def formatColdSubject (i : Nat) (company nameArg trigger_event
    pain_point solution : String) : Option String :=
  match i with
  | 0 => some ("Quick question about " ++ company)
  | 1 => some (nameArg ++ ", noticed " ++ trigger_event)
  | 2 => some ("5-min chat about " ++ pain_point ++ "?")
  | 3 => some (company ++ " + " ++ solution ++ " = ?")
  | _ => none

/-- The argument dict of `generate_email`; `none` models a missing key,
so `.get` falls back to the literal defaults. -/
structure ProspectInfo where
  prospect_name : Option String
  prospect_company : Option String
  prospect_role : Option String
  context : Option String
deriving DecidableEq, Repr

def emptyProspectInfo : ProspectInfo := ⟨none, none, none, none⟩

structure GeneratedEmail where
  success : Bool
  response : String
  agent_type : String
  subject_line : String
  email_body : String
deriving DecidableEq, Repr

def triggerKeys : List String :=
  ["downloaded", "visited", "webinar", "product", "company", "general"]

def valuePropKeys : List String :=
  ["ceo", "vp", "manager", "director", "default"]

def valuePropOf : String → String
  | "ceo" => "helping CEOs like yourself scale operations and increase revenue"
  | "vp" => "enabling VPs to hit their targets faster with less manual work"
  | "manager" => "giving managers the tools to improve team performance"
  | "director" => "helping directors optimize processes and drive results"
  | _ => "helping companies like yours achieve better results"

def responseTail : String :=
  "\n\n**Email Strategy:**\n" ++
  "- **Personalization Level:** High (company and role-specific)\n" ++
  "- **Value Focus:** Operational efficiency and results\n" ++
  "- **Call-to-Action:** Low-pressure meeting request\n" ++
  "- **Follow-up:** Recommend 5-touch sequence over 2 weeks\n\n" ++
  "**Performance Optimization Tips:**\n" ++
  "- A/B test subject lines for your industry\n" ++
  "- Include specific metrics when possible\n" ++
  "- Keep emails under 150 words\n" ++
  "- Send Tuesday-Thursday, 10-11 AM for best response rates\n" ++
  "- Personalize the sender name and email signature\n\n" ++
  "**Next Steps:**\n" ++
  "1. Send initial email\n" ++
  "2. Follow up in 3-4 business days if no response\n" ++
  "3. Vary your approach (phone, LinkedIn, etc.)\n" ++
  "4. Track open rates and responses for optimization\n"

/-- `LocalEmailAgent.generate_email`.  `choice` stands for the index
`random.choice` draws among the five cold subject lines (reduced
mod 5).  The result is `none` when the Python code raises: `IndexError`
from `name.split()[0]` on a whitespace-only name, or `KeyError` from
`.format` on the fifth subject template. -/
def generate_email (info : ProspectInfo) (choice : Nat) :
    Option GeneratedEmail :=
  let name := info.prospect_name.getD "there"
  let company := info.prospect_company.getD "your company"
  let role := info.prospect_role.getD "your role"
  let context := info.context.getD "general outreach"
  let trigger_key :=
    if strContains (lowerStr context) "product" ||
        strContains (lowerStr context) "company" then "company"
    else ((triggerKeys.find?
      (fun k => strContains (lowerStr context) k)).getD "general")
  let personalization :=
    match trigger_key with
    | "downloaded" => "saw you downloaded our " ++ context
    | "visited" => "noticed you visited our " ++ context ++ " page"
    | "webinar" => "saw you attended our " ++ context
    | "product" => "thought you might be interested in our product solutions"
    | _ => "came across " ++ company ++
        " and was impressed by your growth in the industry"
  let role_key := (valuePropKeys.find?
    (fun k => strContains (lowerStr role) k)).getD "default"
  let value_prop := valuePropOf role_key
  match (if name = "there" then some "there"
         else (pySplitWS name).head?) with
  | none => none
  | some firstTok =>
    match formatColdSubject (choice % 5) company firstTok context
        "operational efficiency" "automation" with
    | none => none
    | some subject =>
      let pair :=
        if name ≠ "there" ∧ company ≠ "your company" then
          ("Hi " ++ firstTok ++ ",", "I " ++ personalization ++ ".")
        else ("Hi there,", "I hope this email finds you well.")
      let sender_name := "Your Sales Team"
      let email_body := pair.1 ++ "\n\n" ++ pair.2 ++
        "\n\nWe\x27ve been helping companies like " ++ company ++
        " achieve:\n• 50% reduction in manual processes\n" ++
        "• 40% improvement in operational efficiency  \n" ++
        "• 25% faster time-to-market\n\n" ++
        pyCapitalize value_prop ++
        ".\n\nWorth a brief 15-minute conversation to explore how this " ++
        "could apply to " ++ company ++ "?\n\nBest regards,\n" ++
        sender_name
      let response := "**Subject Line:** " ++ subject ++
        "\n\n**Email Body:**\n" ++ email_body ++ responseTail
      some ⟨true, response, "email", subject, email_body⟩

/-- C7: with every field missing, `generate_email` substitutes the
fallbacks ("there", "your company") and returns a well-formed non-empty
email whenever the drawn subject template is one of the first four; but
when `random.choice` draws the fifth cold subject line
("Helping {similar_company} with {result}"), `.format` is given no
`similar_company`/`result` keyword and raises `KeyError`, so generation
fails even on this input — contradicting the claim that it never fails. -/
theorem C7_fallbacks_but_fifth_subject_raises :
    generate_email emptyProspectInfo 4 = none ∧
    ∀ choice, choice % 5 ≠ 4 →
      ∃ r, generate_email emptyProspectInfo choice = some r ∧
        r.success = true ∧
        r.email_body ≠ "" ∧
        strContains r.email_body "Hi there," = true ∧
        strContains r.email_body "your company" = true := by
  refine ⟨rfl, ?_⟩
  intro choice h
  have h5 : choice % 5 = 0 ∨ choice % 5 = 1 ∨ choice % 5 = 2 ∨
      choice % 5 = 3 := by omega
  have hmod : generate_email emptyProspectInfo choice =
      generate_email emptyProspectInfo (choice % 5) := by
    have hm : choice % 5 % 5 = choice % 5 := by omega
    unfold generate_email
    rw [hm]
  rcases h5 with h0 | h0 | h0 | h0 <;> rw [hmod, h0] <;>
    exact ⟨_, rfl, by decide, by decide, by decide, by decide⟩

/-- C7 witness: the failing draw, and a successful draw with the
fallback strings present in the body. -/
theorem C7_fallbacks_but_fifth_subject_raises_witness :
    generate_email emptyProspectInfo 4 = none ∧
    ∃ r, generate_email emptyProspectInfo 0 = some r ∧
      r.success = true ∧
      r.email_body ≠ "" ∧
      strContains r.email_body "Hi there," = true ∧
      strContains r.email_body "your company" = true :=
  ⟨C7_fallbacks_but_fifth_subject_raises.1,
   C7_fallbacks_but_fifth_subject_raises.2 0 (by decide)⟩

/-! ## API endpoint: `preview_bulk_email_campaign`
(src/backend/app/api/agents.py, lines 199-238).  FastAPI `HTTPException`
subclasses `Exception`, so the endpoint's blanket
`except Exception as e: raise HTTPException(status_code=500,
detail=str(e))` also catches the `HTTPException(400)` raised inside the
`try` block. -/

inductive PyExc where
  | httpExc (status : Nat) (detail : String)
  | keyError (key : String)
deriving DecidableEq, Repr

/-- Python `str(e)`: starlette `HTTPException.__str__` is
`f"{status_code}: {detail}"`; `str(KeyError(k))` is `repr(k)`. -/
def pyExcStr : PyExc → String
  | PyExc.httpExc status detail => toString status ++ ": " ++ detail
  | PyExc.keyError k => "\x27" ++ k ++ "\x27"

structure PreviewEntry where
  prospect : List (String × String)
  subject : String
  body : String
  preview_number : Nat
deriving DecidableEq, Repr

/-- The success payload of the endpoint.  `estimated_minutes` carries the
value `len(prospects) * delay_seconds / 60` that Python formats as the
`estimated_send_time` string. -/
structure PreviewResponse where
  success : Bool
  total_prospects : Nat
  previewed : Nat
  estimated_minutes : ℚ
  campaign_type : String
  email_previews : List PreviewEntry
deriving DecidableEq, Repr

/-- The preview loop over `prospects[:3]`: build the prospect-info dict
with the `.get` defaults and render through
`LocalEmailAgent.generate_email`; a `none` render propagates as the
`KeyError` the Python call would raise. -/
def buildPreviews (campaign_type : String) (choices : Nat → Nat) :
    List (List (String × String)) → Nat → Except PyExc (List PreviewEntry)
  | [], _ => Except.ok []
  | p :: rest, i =>
    match generate_email
        ⟨some ((dictLookup p "name").getD "Prospect"),
         some ((dictLookup p "company").getD "Company"),
         some ((dictLookup p "role").getD "Decision Maker"),
         some ((dictLookup p "context").getD campaign_type)⟩
        (choices i) with
    | none => Except.error (PyExc.keyError "similar_company")
    | some r =>
      match buildPreviews campaign_type choices rest (i + 1) with
      | Except.error e => Except.error e
      | Except.ok l =>
        Except.ok (⟨p, r.subject_line, r.email_body, i + 1⟩ :: l)

/-- The `try` block of the endpoint: raise `HTTPException(400,
"No prospects provided")` on an empty list, else build the previews and
the campaign summary. -/
def preview_bulk_email_try (prospects : List (List (String × String)))
    (campaign_type : String) (delay_seconds : Nat) (choices : Nat → Nat) :
    Except PyExc PreviewResponse :=
  if prospects = [] then
    Except.error (PyExc.httpExc 400 "No prospects provided")
  else
    match buildPreviews campaign_type choices (prospects.take 3) 0 with
    | Except.error e => Except.error e
    | Except.ok previews =>
      Except.ok ⟨true, prospects.length, previews.length,
        ((prospects.length : ℚ) * delay_seconds) / 60, campaign_type,
        previews⟩

inductive EndpointResult where
  | ok (r : PreviewResponse)
  | httpError (status : Nat) (detail : String)
deriving DecidableEq, Repr

/-- The whole endpoint: any exception escaping the `try` block — the
400 `HTTPException` included — is re-raised as
`HTTPException(status_code=500, detail=str(e))`. -/
def preview_bulk_email_campaign (prospects : List (List (String × String)))
    (campaign_type : String) (delay_seconds : Nat) (choices : Nat → Nat) :
    EndpointResult :=
  match preview_bulk_email_try prospects campaign_type delay_seconds
      choices with
  | Except.ok r => EndpointResult.ok r
  | Except.error e => EndpointResult.httpError 500 (pyExcStr e)

def statusOf : EndpointResult → Nat
  | EndpointResult.ok _ => 200
  | EndpointResult.httpError s _ => s

/-- C4: calling the preview endpoint with `prospects=[]` does NOT yield a
4xx client error or an empty preview — the `HTTPException(400)` raised in
the `try` block is caught by the blanket `except Exception` and re-raised
as a server-error response with status 500. -/
theorem C4_empty_prospects_returns_500 :
    preview_bulk_email_campaign [] "outreach" 30 (fun _ => 0) =
      EndpointResult.httpError 500 "400: No prospects provided" ∧
    statusOf (preview_bulk_email_campaign [] "outreach" 30 (fun _ => 0)) =
      500 ∧
    ¬ (400 ≤ statusOf (preview_bulk_email_campaign [] "outreach" 30
        (fun _ => 0)) ∧
       statusOf (preview_bulk_email_campaign [] "outreach" 30
        (fun _ => 0)) < 500) := by
  refine ⟨by decide, by decide, by decide⟩

end AdaptiveAgent
